import Mathlib

/-!
Verification development for the `taa-fog` rendering pipeline.

The TypeScript / GLSL sources are shallowly embedded: pure shader
arithmetic becomes functions over `ℚ` (all shader constants involved are
exactly representable in binary floating point, and the comparisons and
blends at issue are exact), the frame-to-frame pipeline state (render
target references, first-frame flags, jitter counters) becomes explicit
state records with step functions, and each GPU draw call is logged as a
record of its write target and sampled inputs.
-/

namespace TaaFog

/-! ## Stochastic depth shader (`src/shaders/stochasticDepth.frag.glsl`)

The 8×8 ordered (Bayer) dither matrix, entry values `k/64`, row-major,
exactly as listed in the shader source. -/

def BAYER_SIZE : ℕ := 8

def BAYER_LEN : ℕ := 64

/-- The numerators of the shader's matrix entries (each entry of the GLSL
array is written `k/64.0`; the shader values are `BAYER_8X8_NUM.map (·/64)`,
see `BAYER_8X8`). -/
def BAYER_8X8_NUM : List ℕ := [
     0, 32,  8, 40,  2, 34, 10, 42,
    48, 16, 56, 24, 50, 18, 58, 26,
    12, 44,  4, 36, 14, 46,  6, 38,
    60, 28, 52, 20, 62, 30, 54, 22,
     3, 35, 11, 43,  1, 33,  9, 41,
    51, 19, 59, 27, 49, 17, 57, 25,
    15, 47,  7, 39, 13, 45,  5, 37,
    63, 31, 55, 23, 61, 29, 53, 21]

def BAYER_8X8 : List ℚ := BAYER_8X8_NUM.map (fun (k : ℕ) => (k : ℚ) / 64)

/-- Function `ditherPattern` of the 8×8 stochastic depth shader.  Pixel coordinates
are the integer parts of `gl_FragCoord.xy` (the half-pixel offset of
`gl_FragCoord` is truncated away by the `int(mod(...))` conversion in the
shader, so integer pixel indices model it exactly).  `j & 255` on a
non-negative int is `j % 256`. -/
def ditherPattern (pixelX pixelY : ℕ) (jitterIndex : ℕ) : ℚ :=
  let j := jitterIndex % 256
  let ox := j % BAYER_SIZE
  let oy := j / BAYER_SIZE
  let px := (pixelX + ox) % BAYER_SIZE
  let py := (pixelY + oy) % BAYER_SIZE
  let idx := py * BAYER_SIZE + px
  BAYER_8X8.getD idx 0

/-- Fragment `main` of `stochasticDepth.frag.glsl`: `none` models
`discard`, `some` the written color `vec4(1.0)`.  `mapAlpha` is the alpha
channel the opacity texture would return at `vUv` (sampled by the GPU
collaborator). -/
def stochasticDepthFragMain (opacity : ℚ) (hasOpacityMap : Bool) (mapAlpha : ℚ)
    (pixelX pixelY : ℕ) (jitterIndex : ℕ) : Option (ℚ × ℚ × ℚ × ℚ) :=
  let mapOpacity : ℚ := if hasOpacityMap then mapAlpha else 1
  let finalOpacity := opacity * mapOpacity
  let threshold := ditherPattern pixelX pixelY jitterIndex
  if threshold > finalOpacity then none
  else some (1, 1, 1, 1)

/-- Number of frames, over one 64-frame window of jitter indices
`0,…,63`, in which the fragment at `(pixelX, pixelY)` with plain opacity
`p` (no opacity texture bound) is **not** discarded. -/
def survivalCount (pixelX pixelY : ℕ) (p : ℚ) : ℕ :=
  ((List.range 64).filter
    (fun j => stochasticDepthFragMain p false 1 pixelX pixelY j ≠ none)).length

/-! ## The 4×4 variant (`src/unnamed/part_003`, stochastic transparency) -/

def BAYER_4X4_NUM : List ℕ := [
    0,  8,  2, 10,
   12,  4, 14,  6,
    3, 11,  1,  9,
   15,  7, 13,  5]

def BAYER_4X4 : List ℚ := BAYER_4X4_NUM.map (fun (k : ℕ) => (k : ℚ) / 16)

/-- Function `ditherPattern` of the 4×4 stochastic transparency shader
(`j & 15` is `j % 16`). -/
def ditherPattern4 (pixelX pixelY : ℕ) (jitterIndex : ℕ) : ℚ :=
  let j := jitterIndex % 16
  let ox := j % 4
  let oy := j / 4
  let px := (pixelX + ox) % 4
  let py := (pixelY + oy) % 4
  let idx := py * 4 + px
  BAYER_4X4.getD idx 0

/-! ## The stochastic jitter index of `Pipeline.ts`

`Pipeline.updateStochasticDepth` hands the current index to the material
and then advances it: `(this.stochasticJitterIndex + 1) % 16`.  One call
is made per `render()`, so the index used at the `t`-th render after a
reset (`updateTargets` sets it to 0) is as below. -/

def updateStochasticDepthStep (i : ℕ) : ℕ := (i + 1) % 16

/-- Jitter index used by the `t`-th `render()` call after a reset. -/
def stochasticJitterSeq : ℕ → ℕ
  | 0 => 0
  | t + 1 => updateStochasticDepthStep (stochasticJitterSeq t)

/-- The flat matrix index the 8×8 shader computes for pixel `(x, y)` and
jitter offset `(j % 8, j / 8)`. -/
def bayerFlatIndex (x y j : ℕ) : ℕ := ((y + j / 8) % 8) * 8 + ((x + j % 8) % 8)

/-! ## Shader value types -/

structure Vec3 where
  x : ℚ
  y : ℚ
  z : ℚ
deriving DecidableEq

structure Vec4 where
  x : ℚ
  y : ℚ
  z : ℚ
  w : ℚ
deriving DecidableEq

def Vec4.rgb (v : Vec4) : Vec3 := ⟨v.x, v.y, v.z⟩

def Vec3.add (a b : Vec3) : Vec3 := ⟨a.x + b.x, a.y + b.y, a.z + b.z⟩

def Vec3.smul (t : ℚ) (a : Vec3) : Vec3 := ⟨t * a.x, t * a.y, t * a.z⟩

def Vec4.add (a b : Vec4) : Vec4 := ⟨a.x + b.x, a.y + b.y, a.z + b.z, a.w + b.w⟩

def Vec4.smul (t : ℚ) (a : Vec4) : Vec4 := ⟨t * a.x, t * a.y, t * a.z, t * a.w⟩

/-- GLSL `mix(x, y, a) = x·(1−a) + y·a`, componentwise. -/
def mix4 (a b : Vec4) (t : ℚ) : Vec4 :=
  ⟨a.x * (1 - t) + b.x * t, a.y * (1 - t) + b.y * t,
   a.z * (1 - t) + b.z * t, a.w * (1 - t) + b.w * t⟩

def mix3 (a b : Vec3) (t : ℚ) : Vec3 :=
  ⟨a.x * (1 - t) + b.x * t, a.y * (1 - t) + b.y * t, a.z * (1 - t) + b.z * t⟩

def clampQ (x lo hi : ℚ) : ℚ := min (max x lo) hi

/-! ## Temporal blend shader (`taaBlendSimple.frag.glsl`)

Used by **both** blend materials of the corpus: `FogBlendMaterial`
(default `blendFactor` 0.9) and `TAABlendSimpleMaterial` (default 0.7)
share this same fragment shader.  Textures are modelled as functions from
UV coordinates to sampled values. -/

def taaBlendSimpleFragMain (tCurrent tHistory : ℚ × ℚ → Vec4) (blendFactor : ℚ)
    (vUv : ℚ × ℚ) : Vec4 :=
  let current := tCurrent vUv
  let history := tHistory vUv
  mix4 current history blendFactor

/-! ## Compose shader (`compose.frag.glsl`, the color-grading variant that
matches the uniform set of `src/materials/ComposeMaterial.ts`)

`fog` is the value of `blurFog(tFog, vUv, fogBlurRadius)` — the Gaussian
blur's `exp` weights are a float intrinsic of the GPU collaborator, so the
blurred fog sample enters the model as an input.  `dist` is
`distance(vUv, vec2(0.5))` for the vignette (the square root is likewise
left to the caller).  The literal `0.001` is modelled as `1/1000`. -/

def applyColorCorrection (exposure contrast saturation brightness : ℚ)
    (color : Vec3) : Vec3 :=
  let c1 := Vec3.smul exposure color
  let c2 : Vec3 := ⟨c1.x + (brightness - 1), c1.y + (brightness - 1), c1.z + (brightness - 1)⟩
  let c3 : Vec3 := ⟨(c2.x - 1/2) * contrast + 1/2, (c2.y - 1/2) * contrast + 1/2,
                    (c2.z - 1/2) * contrast + 1/2⟩
  let gray := (299/1000) * c3.x + (587/1000) * c3.y + (114/1000) * c3.z
  mix3 ⟨gray, gray, gray⟩ c3 saturation

def smoothstepQ (e0 e1 x : ℚ) : ℚ :=
  let t := clampQ ((x - e0) / (e1 - e0)) 0 1
  t * t * (3 - 2 * t)

def calculateVignette (vignetteIntensity vignetteRadius dist : ℚ) : ℚ :=
  let vignette := 1 - smoothstepQ (vignetteRadius * (1/2)) vignetteRadius dist
  1 - vignetteIntensity * (1 - vignette)

/-- The pre-grading composite: background substitution where scene alpha is
≈ 0, then additive fog. -/
def composePreGrade (color fog : Vec4) (backgroundColor : Vec3) : Vec3 :=
  let sceneColor := if color.w > 1/1000 then color.rgb else backgroundColor
  Vec3.add sceneColor fog.rgb

def composeFragMain (color fog : Vec4) (backgroundColor : Vec3)
    (vignetteIntensity vignetteRadius exposure contrast saturation brightness : ℚ)
    (dist : ℚ) : Vec4 :=
  let finalColor := composePreGrade color fog backgroundColor
  let corrected := applyColorCorrection exposure contrast saturation brightness finalColor
  let vignette := calculateVignette vignetteIntensity vignetteRadius dist
  let finalAlpha := max color.w fog.w
  ⟨corrected.x * vignette, corrected.y * vignette, corrected.z * vignette, finalAlpha⟩

/-! ## Stochastic-depth pass material substitution (`Pipeline.renderDepthBuffer`)

Scene meshes carry either their own `MeshPhysicalMaterial` or a cloned
`StochasticDepthMaterial` temporarily substituted for the depth pass.
Mesh identity (`meshId`) stands for JavaScript object identity, which keys
the `originalMaterials` map. -/

structure PhysMaterial where
  matId : ℕ
  transparent : Bool
  opacity : ℚ
  hasMap : Bool
deriving DecidableEq

inductive MeshMaterial
  | phys (m : PhysMaterial)
  | stochClone (opacity : ℚ) (hasMap : Bool) (jitterIndex : ℕ)
deriving DecidableEq

structure SceneMesh where
  meshId : ℕ
  material : MeshMaterial
deriving DecidableEq

/-- The `material instanceof THREE.MeshPhysicalMaterial && material.transparent`
test of the substitution loop. -/
def isTransparentPhys : MeshMaterial → Bool
  | .phys m => m.transparent
  | .stochClone .. => false

/-- The loop body of `renderDepthBuffer`: walk the cached transparent-mesh
list, saving each original material keyed by mesh and substituting a fresh
clone carrying the mesh's own opacity / opacity map and the current jitter
index.  Returns the substituted meshes and the saved-material map (in
traversal order). -/
def substituteMaterials (jitter : ℕ) : List SceneMesh → List SceneMesh × List (ℕ × MeshMaterial)
  | [] => ([], [])
  | mesh :: rest =>
    let tail := substituteMaterials jitter rest
    match mesh.material with
    | .phys m =>
      if m.transparent then
        ({ mesh with material := .stochClone m.opacity m.hasMap jitter } :: tail.1,
         (mesh.meshId, mesh.material) :: tail.2)
      else
        (mesh :: tail.1, tail.2)
    | .stochClone .. => (mesh :: tail.1, tail.2)

/-- What the substitution loop does to a single mesh: transparent
`MeshPhysicalMaterial`s are replaced by a stochastic-depth clone, all other
meshes are left alone. -/
def substMesh (jitter : ℕ) (mesh : SceneMesh) : SceneMesh :=
  match mesh.material with
  | .phys m =>
    if m.transparent then
      { mesh with material := .stochClone m.opacity m.hasMap jitter }
    else mesh
  | .stochClone .. => mesh

/-- Restoration `originalMaterials.forEach((material, mesh) => mesh.material = material)`:
each mesh present in the saved map gets its saved material back. -/
def restoreMaterials (saved : List (ℕ × MeshMaterial)) (meshes : List SceneMesh) :
    List SceneMesh :=
  meshes.map (fun mesh =>
    match saved.lookup mesh.meshId with
    | some mat => { mesh with material := mat }
    | none => mesh)

structure DepthPassOutcome where
  meshes : List SceneMesh
  disposedClones : List Bool
  threw : Bool
deriving DecidableEq

/-- Model of `Pipeline.renderDepthBuffer`, with the underlying `renderer.render` call
modelled by whether it throws.  The source has no `try`/`finally`: when the
render call throws, the exception propagates before the restore/dispose
statements run. -/
def renderDepthBufferModel (renderThrows : Bool) (jitter : ℕ)
    (transparentMeshes : List SceneMesh) : DepthPassOutcome :=
  let subst := substituteMaterials jitter transparentMeshes
  if renderThrows then
    { meshes := subst.1, disposedClones := List.replicate subst.2.length false,
      threw := true }
  else
    { meshes := restoreMaterials subst.2 subst.1,
      disposedClones := List.replicate subst.2.length true, threw := false }

/-! ## Fog pipeline state machine (`Pipeline.ts`)

Physical buffer ids: 0 = colorTarget, 1 = depthTarget, 2/3/4 = the three
fog targets created by `initFog` (fogCurrent, fogHistory, fogBlended at
construction).  The three `fog*Target` fields hold references that the
swap statements permute.  Each GPU draw is logged with its bound render
target (`none` = default framebuffer / screen) and the pipeline-owned
targets it samples. -/

inductive PassKind
  | colorPass | depthPass | fogPass | fogBlendPass | composePass
  | taaScenePass | taaVelocityPass | taaBlendPass | taaSeedPass
  | taaSeedDepthPass | taaFogPass | taaComposePass
deriving DecidableEq

structure Draw where
  kind : PassKind
  target : Option ℕ
  inputs : List ℕ
deriving DecidableEq

@[ext]
structure PipelineState where
  fogCurrentTarget : ℕ
  fogHistoryTarget : ℕ
  fogBlendedTarget : ℕ
  fogFirstFrame : Bool
  stochasticJitterIndex : ℕ
  sceneBound : Bool
  downsamplingFactor : ℕ
  targetSizes : ℕ → ℕ × ℕ
  stochasticDepthRes : ℕ × ℕ
  fogMaterialRes : ℕ × ℕ
  composeMaterialRes : ℕ × ℕ
  depthPassMaterialRes : ℕ × ℕ

def colorTargetId : ℕ := 0

def depthTargetId : ℕ := 1

/-- Constructor + `initColorBuffer/initDepthBuffer/initFog/initComposition/initDebugDepth`
at window size `w × h`. -/
def initPipeline (w h factor : ℕ) : PipelineState :=
  let dw := w / factor
  let dh := h / factor
  { fogCurrentTarget := 2
    fogHistoryTarget := 3
    fogBlendedTarget := 4
    fogFirstFrame := true
    stochasticJitterIndex := 0
    sceneBound := false
    downsamplingFactor := factor
    targetSizes := fun i => if i = 0 then (w, h) else (dw, dh)
    stochasticDepthRes := (dw, dh)
    fogMaterialRes := (dw, dh)
    composeMaterialRes := (w, h)
    depthPassMaterialRes := (dw, dh) }

def setScenePipeline (s : PipelineState) : PipelineState := { s with sceneBound := true }

/-- Model of `Pipeline.blendFog`: first frame swaps current/history with no draw;
otherwise one blend draw reading current+history and writing blended,
followed by the history/blended swap. -/
def blendFogStep (s : PipelineState) : PipelineState × List Draw :=
  if s.fogFirstFrame then
    ({ s with fogFirstFrame := false,
              fogHistoryTarget := s.fogCurrentTarget,
              fogCurrentTarget := s.fogHistoryTarget }, [])
  else
    ({ s with fogHistoryTarget := s.fogBlendedTarget,
              fogBlendedTarget := s.fogHistoryTarget },
     [⟨.fogBlendPass, some s.fogBlendedTarget,
       [s.fogCurrentTarget, s.fogHistoryTarget]⟩])

/-- Model of `Pipeline.render` for one frame: color pass, stochastic depth pass
(which advances the jitter index), fog pass, temporal blend, compose.
Returns the post-frame state and the draw log of the frame. -/
def renderPipeline (s : PipelineState) : PipelineState × List Draw :=
  if s.sceneBound then
    let s1 := { s with stochasticJitterIndex := updateStochasticDepthStep s.stochasticJitterIndex }
    let colorDraw : Draw := ⟨.colorPass, some colorTargetId, []⟩
    let depthDraw : Draw := ⟨.depthPass, some depthTargetId, []⟩
    let fogDraw : Draw := ⟨.fogPass, some s1.fogCurrentTarget, [depthTargetId]⟩
    let blended := blendFogStep s1
    let composeDraw : Draw :=
      ⟨.composePass, none, [colorTargetId, blended.1.fogHistoryTarget]⟩
    (blended.1, [colorDraw, depthDraw, fogDraw] ++ blended.2 ++ [composeDraw])
  else (s, [])

/-- Model of `Pipeline.updateTargets` at window size `w × h`: resize every target and
resolution-aware material, then reset the first-frame flag and jitter. -/
def updateTargetsPipeline (w h : ℕ) (s : PipelineState) : PipelineState :=
  let dw := w / s.downsamplingFactor
  let dh := h / s.downsamplingFactor
  let sizes1 := Function.update s.targetSizes colorTargetId (w, h)
  let sizes2 := Function.update sizes1 depthTargetId (dw, dh)
  let sizes3 := Function.update sizes2 s.fogCurrentTarget (dw, dh)
  let sizes4 := Function.update sizes3 s.fogHistoryTarget (dw, dh)
  let sizes5 := Function.update sizes4 s.fogBlendedTarget (dw, dh)
  { s with targetSizes := sizes5
           stochasticDepthRes := (dw, dh)
           fogMaterialRes := (dw, dh)
           composeMaterialRes := (w, h)
           depthPassMaterialRes := (dw, dh)
           fogFirstFrame := true
           stochasticJitterIndex := 0 }

inductive PipelineOp
  | renderOp
  | updateTargetsOp (w h : ℕ)
  | setSceneOp
deriving DecidableEq

def stepPipeline (s : PipelineState) : PipelineOp → PipelineState × List Draw
  | .renderOp => renderPipeline s
  | .updateTargetsOp w h => (updateTargetsPipeline w h s, [])
  | .setSceneOp => (setScenePipeline s, [])

/-- Run a sequence of operations, accumulating the draw log. -/
def runPipeline (s : PipelineState) : List PipelineOp → PipelineState × List Draw
  | [] => (s, [])
  | op :: ops =>
    let r := stepPipeline s op
    let rest := runPipeline r.1 ops
    (rest.1, r.2 ++ rest.2)

/-! ## TAA pipeline state machine (`src/unnamed/part_005`)

Physical buffer ids: 10 = taaCurrentTarget, 11/12 = the two ping-pong
buffers created as taaPreviousTarget/taaAccumulatedTarget, 13/14 = the two
depth buffers created as taaDepthTarget/taaHistoryDepthTarget,
15 = taaVelocityTarget, 16 = fogTarget, 17 = depthTarget (debug). -/

structure TAAState where
  taaPreviousTarget : ℕ
  taaAccumulatedTarget : ℕ
  taaDepthTarget : ℕ
  taaHistoryDepthTarget : ℕ
  taaFirstFrame : Bool
  taaJitterIndex : ℕ
  stochasticJitterIndex : ℕ
  cubeHasShaderMaterial : Bool
deriving DecidableEq

def taaCurrentId : ℕ := 10

def taaVelocityId : ℕ := 15

def taaFogId : ℕ := 16

def initTAAState (cube : Bool) : TAAState :=
  { taaPreviousTarget := 11
    taaAccumulatedTarget := 12
    taaDepthTarget := 13
    taaHistoryDepthTarget := 14
    taaFirstFrame := true
    taaJitterIndex := 0
    stochasticJitterIndex := 0
    cubeHasShaderMaterial := cube }

/-- Model of `Pipeline.updateStochasticTransparency`: pushes the current index to the
cube's material and advances `(i + 1) % 16` — but only when the scene's
cube mesh carries a `ShaderMaterial`. -/
def updateStochasticTransparencyStep (cube : Bool) (i : ℕ) : ℕ :=
  if cube then (i + 1) % 16 else i

/-- Model of `Pipeline.renderTAA` (with all TAA targets present): a second stochastic
jitter update, camera jitter `(taaJitterIndex + 1) % 8`, scene renders into
current and depth, the velocity pass, the first-frame seeding renders, the
blend draw into previous, the fog and compose draws, then the two
ping-pong swaps. -/
def renderTAAStep (s : TAAState) : TAAState × List Draw :=
  let s1 := { s with stochasticJitterIndex :=
                updateStochasticTransparencyStep s.cubeHasShaderMaterial s.stochasticJitterIndex }
  let s2 := { s1 with taaJitterIndex := (s1.taaJitterIndex + 1) % 8 }
  let sceneDraws : List Draw :=
    [⟨.taaScenePass, some taaCurrentId, []⟩,
     ⟨.taaScenePass, some s2.taaDepthTarget, []⟩]
  let velocityDraw : Draw := ⟨.taaVelocityPass, some taaVelocityId, [s2.taaDepthTarget]⟩
  let seedDraws : List Draw :=
    if s2.taaFirstFrame then
      [⟨.taaSeedPass, some s2.taaAccumulatedTarget, []⟩,
       ⟨.taaSeedDepthPass, some s2.taaHistoryDepthTarget, []⟩]
    else []
  let s3 := { s2 with taaFirstFrame := false }
  let blendDraw : Draw :=
    ⟨.taaBlendPass, some s3.taaPreviousTarget, [taaCurrentId, s3.taaAccumulatedTarget]⟩
  let fogDraw : Draw := ⟨.taaFogPass, some taaFogId, [s3.taaDepthTarget]⟩
  let composeDraw : Draw := ⟨.taaComposePass, none, [s3.taaPreviousTarget, taaFogId]⟩
  let s4 := { s3 with taaPreviousTarget := s3.taaAccumulatedTarget,
                      taaAccumulatedTarget := s3.taaPreviousTarget,
                      taaDepthTarget := s3.taaHistoryDepthTarget,
                      taaHistoryDepthTarget := s3.taaDepthTarget }
  (s4, sceneDraws ++ [velocityDraw] ++ seedDraws ++ [blendDraw, fogDraw, composeDraw])

/-- Model of `Pipeline.render` of the TAA variant: one stochastic jitter update in
`render()` itself, then `renderTAA()` (TAA is enabled and all targets
exist after construction). -/
def renderTAAFrame (s : TAAState) : TAAState × List Draw :=
  let s1 := { s with stochasticJitterIndex :=
                updateStochasticTransparencyStep s.cubeHasShaderMaterial s.stochasticJitterIndex }
  renderTAAStep s1

/-- Model of `updateTargets` of the TAA variant: resets jitter indices and the
first-frame flag (target sizes omitted — the TAA variant keeps every
target at full window resolution). -/
def updateTargetsTAA (s : TAAState) : TAAState :=
  { s with taaJitterIndex := 0, stochasticJitterIndex := 0, taaFirstFrame := true }

inductive TAAOp
  | renderOp
  | updateTargetsOp
deriving DecidableEq

def stepTAA (s : TAAState) : TAAOp → TAAState × List Draw
  | .renderOp => renderTAAFrame s
  | .updateTargetsOp => (updateTargetsTAA s, [])

def runTAA (s : TAAState) : List TAAOp → TAAState × List Draw
  | [] => (s, [])
  | op :: ops =>
    let r := stepTAA s op
    let rest := runTAA r.1 ops
    (rest.1, r.2 ++ rest.2)

/-- The stochastic jitter index of the TAA pipeline at the start of the
`t`-th frame after a reset: each `render()` applies the update twice
(once in `render()`, once in `renderTAA()`). -/
def taaStochSeq (cube : Bool) : ℕ → ℕ
  | 0 => 0
  | t + 1 =>
    updateStochasticTransparencyStep cube
      (updateStochasticTransparencyStep cube (taaStochSeq cube t))

/-! ## Aliasing invariants -/

/-- A draw call never samples the target it is writing. -/
def drawNoAlias (d : Draw) : Prop := ∀ t, d.target = some t → t ∉ d.inputs

/-- The three fog-target references are the three physical fog buffers
2/3/4 and are pairwise distinct. -/
def fogTargetsOK (s : PipelineState) : Prop :=
  (s.fogCurrentTarget = 2 ∨ s.fogCurrentTarget = 3 ∨ s.fogCurrentTarget = 4) ∧
  (s.fogHistoryTarget = 2 ∨ s.fogHistoryTarget = 3 ∨ s.fogHistoryTarget = 4) ∧
  (s.fogBlendedTarget = 2 ∨ s.fogBlendedTarget = 3 ∨ s.fogBlendedTarget = 4) ∧
  s.fogCurrentTarget ≠ s.fogHistoryTarget ∧
  s.fogCurrentTarget ≠ s.fogBlendedTarget ∧
  s.fogHistoryTarget ≠ s.fogBlendedTarget

/-- The TAA ping-pong pairs hold the two accumulation buffers 11/12 and
the two depth buffers 13/14, in either order. -/
def taaTargetsOK (s : TAAState) : Prop :=
  ((s.taaPreviousTarget = 11 ∧ s.taaAccumulatedTarget = 12) ∨
   (s.taaPreviousTarget = 12 ∧ s.taaAccumulatedTarget = 11)) ∧
  ((s.taaDepthTarget = 13 ∧ s.taaHistoryDepthTarget = 14) ∨
   (s.taaDepthTarget = 14 ∧ s.taaHistoryDepthTarget = 13))

theorem stochasticJitterSeq_eq (t : ℕ) : stochasticJitterSeq t = t % 16 := by
  induction t with
  | zero => rfl
  | succ n ih =>
    simp only [stochasticJitterSeq, updateStochasticDepthStep, ih]
    omega

/-! ### Helper lemmas about the dither pattern -/

theorem bayerFlatIndex_lt (x y j : ℕ) : bayerFlatIndex x y j < 64 := by
  unfold bayerFlatIndex; omega

theorem bayer_getD_cast (idx : ℕ) (hlt : idx < BAYER_8X8_NUM.length) :
    BAYER_8X8.getD idx 0 = ((BAYER_8X8_NUM.getD idx 0 : ℕ) : ℚ) / 64 := by
  unfold BAYER_8X8
  rw [List.getD_eq_getElem?_getD, List.getElem?_map, List.getElem?_eq_getElem hlt,
    List.getD_eq_getElem?_getD, List.getElem?_eq_getElem hlt]
  simp

theorem ditherPattern_eq_num (x y j : ℕ) (hj : j < 256) :
    ditherPattern x y j =
      ((BAYER_8X8_NUM.getD (bayerFlatIndex x y j) 0 : ℕ) : ℚ) / 64 := by
  have h1 : ditherPattern x y j = BAYER_8X8.getD (bayerFlatIndex x y j) 0 := by
    unfold ditherPattern bayerFlatIndex BAYER_SIZE
    rw [Nat.mod_eq_of_lt hj]
  have hlen : BAYER_8X8_NUM.length = 64 := by decide
  rw [h1, bayer_getD_cast _ (by rw [hlen]; exact bayerFlatIndex_lt x y j)]

/-- For a fixed pixel, the map `j ↦ flat index` is a permutation of the 64
matrix cells as `j` runs over one full 64-value window. -/
theorem bayerFlatIndex_perm (x y : ℕ) :
    ((List.range 64).map (bayerFlatIndex x y)).Perm (List.range 64) := by
  have hn : ((List.range 64).map (bayerFlatIndex x y)).Nodup := by
    refine (List.nodup_range 64).map_on ?_
    intro a ha b hb hab
    simp only [List.mem_range] at ha hb
    unfold bayerFlatIndex at hab
    omega
  have hsub : ((List.range 64).map (bayerFlatIndex x y)) ⊆ List.range 64 := by
    intro a ha
    simp only [List.mem_map, List.mem_range] at ha ⊢
    obtain ⟨j, _, rfl⟩ := ha
    exact bayerFlatIndex_lt x y j
  exact (hn.subperm hsub).perm_of_length_le (by simp)

theorem bayer_num_perm_range : BAYER_8X8_NUM.Perm (List.range 64) := by decide

theorem bayer4_num_perm_range : BAYER_4X4_NUM.Perm (List.range 16) := by decide

theorem range64_map_getD : (List.range 64).map (fun k => BAYER_8X8_NUM.getD k 0) =
    BAYER_8X8_NUM := by decide

theorem countP_le_range (m n : ℕ) :
    (List.range n).countP (fun k => decide (k ≤ m)) = min (m + 1) n := by
  induction n with
  | zero => simp
  | succ n ih =>
    rw [List.range_succ, List.countP_append, ih]
    by_cases hn : n ≤ m <;> simp [hn] <;> omega

/-- Comparing a matrix threshold `k/64` against an opacity `p ≥ 0` is
comparing the numerator `k` against `⌊p·64⌋`. -/
theorem num_div_le_iff (k : ℕ) (p : ℚ) (h0 : 0 ≤ p) :
    ((k : ℚ) / 64 ≤ p) ↔ k ≤ (⌊p * 64⌋).toNat := by
  have h64 : (0 : ℚ) < 64 := by norm_num
  rw [div_le_iff₀ h64]
  have hfl : (0 : ℤ) ≤ ⌊p * 64⌋ := Int.floor_nonneg.mpr (by positivity)
  have hle : ((k : ℚ) ≤ p * 64) ↔ ((k : ℤ) ≤ ⌊p * 64⌋) := by
    rw [Int.le_floor]; push_cast; rfl
  rw [hle]; omega

/-- With no opacity texture bound, the fragment survives (is not
discarded) iff its dither threshold is at most its opacity. -/
theorem frag_survives_iff (p mapAlpha : ℚ) (x y j : ℕ) :
    (stochasticDepthFragMain p false mapAlpha x y j ≠ none) ↔
      ditherPattern x y j ≤ p := by
  simp only [stochasticDepthFragMain, Bool.false_eq_true, if_false, mul_one]
  by_cases h : ditherPattern x y j > p
  · simp [h, not_le.mpr h]
  · simp [h, not_lt.mp h]

/-- With no opacity texture bound, the fragment is discarded iff its dither
threshold exceeds its opacity. -/
theorem frag_discard_iff (p mapAlpha : ℚ) (x y j : ℕ) :
    (stochasticDepthFragMain p false mapAlpha x y j = none) ↔
      ditherPattern x y j > p := by
  simp only [stochasticDepthFragMain, Bool.false_eq_true, if_false, mul_one]
  by_cases h : ditherPattern x y j > p
  · simp [h]
  · simp [h]

/-- Core counting fact behind the stochastic-convergence property: for any
pixel and any opacity `0 ≤ p < 1`, exactly `⌊p·64⌋ + 1` of the 64 jitter
values in a full window let the fragment survive. -/
theorem survivalCount_eq (x y : ℕ) (p : ℚ) (h0 : 0 ≤ p) (h1 : p < 1) :
    survivalCount x y p = (⌊p * 64⌋).toNat + 1 := by
  set m := (⌊p * 64⌋).toNat with hm
  have hm64 : m < 64 := by
    have hfl : ⌊p * 64⌋ < 64 := Int.floor_lt.mpr (by push_cast; nlinarith)
    omega
  unfold survivalCount
  rw [← List.countP_eq_length_filter]
  have hcongr : (List.range 64).countP
        (fun j => decide (stochasticDepthFragMain p false 1 x y j ≠ none)) =
      (List.range 64).countP
        (fun j => decide (BAYER_8X8_NUM.getD (bayerFlatIndex x y j) 0 ≤ m)) := by
    refine List.countP_congr ?_
    intro j hj
    simp only [List.mem_range] at hj
    simp only [decide_eq_true_eq]
    rw [frag_survives_iff, ditherPattern_eq_num x y j (by omega),
      num_div_le_iff _ p h0]
  rw [hcongr]
  have hmap1 : (List.range 64).countP
        (fun j => decide (BAYER_8X8_NUM.getD (bayerFlatIndex x y j) 0 ≤ m)) =
      (((List.range 64).map (bayerFlatIndex x y)).countP
        (fun k => decide (BAYER_8X8_NUM.getD k 0 ≤ m))) := by
    rw [List.countP_map]; rfl
  rw [hmap1, (bayerFlatIndex_perm x y).countP_eq]
  have hmap2 : (List.range 64).countP (fun k => decide (BAYER_8X8_NUM.getD k 0 ≤ m)) =
      (((List.range 64).map (fun k => BAYER_8X8_NUM.getD k 0)).countP
        (fun v => decide (v ≤ m))) := by
    rw [List.countP_map]; rfl
  rw [hmap2, range64_map_getD, bayer_num_perm_range.countP_eq, countP_le_range]
  omega

/-! ### Jitter-cycle coverage -/

theorem residue_window_perm :
    ∀ r < 16, ((List.range 16).map (fun i => (r + i) % 16)).Perm (List.range 16) := by
  decide

/-- Any 16 consecutive values of the stochastic jitter sequence are a
permutation of `[0, 16)`. -/
theorem jitter_window_perm (t0 : ℕ) :
    ((List.range 16).map (fun i => stochasticJitterSeq (t0 + i))).Perm
      (List.range 16) := by
  have h1 : ((List.range 16).map (fun i => stochasticJitterSeq (t0 + i))) =
      (List.range 16).map (fun i => (t0 % 16 + i) % 16) := by
    refine List.map_congr_left ?_
    intro i _
    rw [stochasticJitterSeq_eq]
    omega
  rw [h1]
  exact residue_window_perm (t0 % 16) (Nat.mod_lt _ (by norm_num))

theorem cast_div64_injective :
    Function.Injective (fun (k : ℕ) => (k : ℚ) / 64) := by
  intro a b h
  simp only [div_eq_div_iff (by norm_num : (64:ℚ) ≠ 0) (by norm_num : (64:ℚ) ≠ 0)] at h
  have : (a : ℚ) = b := by
    field_simp at h
    exact_mod_cast h
  exact_mod_cast this

theorem cast_div16_injective :
    Function.Injective (fun (k : ℕ) => (k : ℚ) / 16) := by
  intro a b h
  have : (a : ℚ) = b := by
    field_simp at h
    exact_mod_cast h
  exact_mod_cast this

/-- The 8×8 matrix contains each threshold `k/64`, `k < 64`, exactly once. -/
theorem bayer8_count (k : ℕ) (hk : k < 64) : BAYER_8X8.count ((k : ℚ) / 64) = 1 := by
  unfold BAYER_8X8
  rw [List.count_map_of_injective _ _ cast_div64_injective]
  have hnd : BAYER_8X8_NUM.Nodup :=
    bayer_num_perm_range.nodup_iff.mpr (List.nodup_range 64)
  have hmem : k ∈ BAYER_8X8_NUM :=
    bayer_num_perm_range.mem_iff.mpr (List.mem_range.mpr hk)
  exact List.count_eq_one_of_mem hnd hmem

/-- The 4×4 matrix contains each threshold `k/16`, `k < 16`, exactly once. -/
theorem bayer4_count (k : ℕ) (hk : k < 16) : BAYER_4X4.count ((k : ℚ) / 16) = 1 := by
  unfold BAYER_4X4
  rw [List.count_map_of_injective _ _ cast_div16_injective]
  have hnd : BAYER_4X4_NUM.Nodup :=
    bayer4_num_perm_range.nodup_iff.mpr (List.nodup_range 16)
  have hmem : k ∈ BAYER_4X4_NUM :=
    bayer4_num_perm_range.mem_iff.mpr (List.mem_range.mpr hk)
  exact List.count_eq_one_of_mem hnd hmem

/-! ### Material substitution and restoration -/

theorem substituteMaterials_fst (jitter : ℕ) (l : List SceneMesh) :
    (substituteMaterials jitter l).1 = l.map (substMesh jitter) := by
  induction l with
  | nil => rfl
  | cons mesh rest ih =>
    obtain ⟨mid, mat⟩ := mesh
    cases mat with
    | phys m =>
      by_cases hm : m.transparent <;>
        simp [substituteMaterials, substMesh, hm, ih]
    | stochClone o hmap j =>
      simp [substituteMaterials, substMesh, ih]

theorem substituteMaterials_snd_keys (jitter : ℕ) (l : List SceneMesh) :
    ((substituteMaterials jitter l).2.map Prod.fst) ⊆ l.map SceneMesh.meshId := by
  induction l with
  | nil => simp [substituteMaterials]
  | cons mesh rest ih =>
    obtain ⟨mid, mat⟩ := mesh
    cases mat with
    | phys m =>
      by_cases hm : m.transparent
      · simpa [substituteMaterials, hm] using List.cons_subset_cons _ ih
      · simp only [substituteMaterials, hm, if_false, List.map_cons]
        exact ih.trans (List.subset_cons_self _ _)
    | stochClone o hmap j =>
      simp only [substituteMaterials, List.map_cons]
      exact ih.trans (List.subset_cons_self _ _)

theorem lookup_eq_none_of_not_mem_keys {k : ℕ} {saved : List (ℕ × MeshMaterial)}
    (h : k ∉ saved.map Prod.fst) : saved.lookup k = none := by
  induction saved with
  | nil => rfl
  | cons e rest ih =>
    obtain ⟨k', v⟩ := e
    simp only [List.map_cons, List.mem_cons] at h
    push_neg at h
    simp [List.lookup, beq_eq_false_iff_ne.mpr h.1, ih h.2]

theorem restoreMaterials_cons_of_not_mem {k : ℕ} {mat : MeshMaterial}
    {saved : List (ℕ × MeshMaterial)} {l : List SceneMesh}
    (h : k ∉ l.map SceneMesh.meshId) :
    restoreMaterials ((k, mat) :: saved) l = restoreMaterials saved l := by
  unfold restoreMaterials
  refine List.map_congr_left ?_
  intro mesh hm
  have hne : mesh.meshId ≠ k := by
    intro he
    exact h (he ▸ List.mem_map_of_mem SceneMesh.meshId hm)
  simp [List.lookup, beq_eq_false_iff_ne.mpr hne]

theorem substMesh_meshId (jitter : ℕ) (mesh : SceneMesh) :
    (substMesh jitter mesh).meshId = mesh.meshId := by
  obtain ⟨i, mm⟩ := mesh
  cases mm with
  | phys pm => by_cases hp : pm.transparent <;> simp [substMesh, hp]
  | stochClone o hmp j => simp [substMesh]

theorem substituteMaterials_cons_transparent (jitter mid : ℕ) (m : PhysMaterial)
    (rest : List SceneMesh) (hm : m.transparent = true) :
    substituteMaterials jitter (⟨mid, .phys m⟩ :: rest) =
      (⟨mid, .stochClone m.opacity m.hasMap jitter⟩ ::
          (substituteMaterials jitter rest).1,
       (mid, .phys m) :: (substituteMaterials jitter rest).2) := by
  simp [substituteMaterials, hm]

theorem substituteMaterials_cons_skip (jitter mid : ℕ) (mat : MeshMaterial)
    (rest : List SceneMesh) (hmat : isTransparentPhys mat = false) :
    substituteMaterials jitter (⟨mid, mat⟩ :: rest) =
      (⟨mid, mat⟩ :: (substituteMaterials jitter rest).1,
       (substituteMaterials jitter rest).2) := by
  cases mat with
  | phys m =>
    simp only [isTransparentPhys] at hmat
    simp [substituteMaterials, hmat]
  | stochClone o hmp j => simp [substituteMaterials]

theorem restoreMaterials_cons (saved : List (ℕ × MeshMaterial)) (mesh : SceneMesh)
    (l : List SceneMesh) :
    restoreMaterials saved (mesh :: l) =
      (match saved.lookup mesh.meshId with
        | some mt => { mesh with material := mt }
        | none => mesh) :: restoreMaterials saved l := rfl

/-- With distinct mesh identities, restoring from the saved-material map
undoes the substitution exactly. -/
theorem restore_substitute (jitter : ℕ) (l : List SceneMesh)
    (h : (l.map SceneMesh.meshId).Nodup) :
    restoreMaterials (substituteMaterials jitter l).2
      (substituteMaterials jitter l).1 = l := by
  induction l with
  | nil => rfl
  | cons mesh rest ih =>
    simp only [List.map_cons, List.nodup_cons] at h
    obtain ⟨hid, hrest⟩ := h
    obtain ⟨mid, mat⟩ := mesh
    have hkeys : mid ∉ (substituteMaterials jitter rest).2.map Prod.fst :=
      fun hmem => hid (substituteMaterials_snd_keys jitter rest hmem)
    have hids : mid ∉ (substituteMaterials jitter rest).1.map SceneMesh.meshId := by
      rw [substituteMaterials_fst, List.map_map]
      have hcomp : (SceneMesh.meshId ∘ substMesh jitter) = SceneMesh.meshId := by
        funext mm
        exact substMesh_meshId jitter mm
      rwa [hcomp]
    have htail := ih hrest
    cases mat with
    | phys m =>
      by_cases hm : m.transparent
      · rw [substituteMaterials_cons_transparent jitter mid m rest hm,
          restoreMaterials_cons, restoreMaterials_cons_of_not_mem hids, htail,
          List.cons.injEq]
        exact ⟨by simp [List.lookup], rfl⟩
      · rw [substituteMaterials_cons_skip jitter mid (.phys m) rest
            (by simpa [isTransparentPhys] using hm),
          restoreMaterials_cons, htail, List.cons.injEq]
        exact ⟨by simp [lookup_eq_none_of_not_mem_keys hkeys], rfl⟩
    | stochClone o hmap j =>
      rw [substituteMaterials_cons_skip jitter mid (.stochClone o hmap j) rest
          (by simp [isTransparentPhys]),
        restoreMaterials_cons, htail, List.cons.injEq]
      exact ⟨by simp [lookup_eq_none_of_not_mem_keys hkeys], rfl⟩

/-! ## Claim C3 -/

/-- Claim C3, counterexample.  `renderDepthBuffer` has no `try`/`finally`:
for a scene with one transparent mesh, if the underlying render call
throws, the mesh is left holding the stochastic-depth clone (its material
no longer equals the pre-pass value) and the clone is not disposed —
contradicting the claim's "including when the underlying render call
throws". -/
theorem c3_throw_leaves_clone_undisposed :
    (renderDepthBufferModel true 0
        [⟨0, .phys ⟨100, true, 1, false⟩⟩]).meshes ≠
      [⟨0, .phys ⟨100, true, 1, false⟩⟩] ∧
    (renderDepthBufferModel true 0
        [⟨0, .phys ⟨100, true, 1, false⟩⟩]).disposedClones = [false] := by
  constructor
  · intro h
    have h0 : (renderDepthBufferModel true 0
        [⟨0, .phys ⟨100, true, 1, false⟩⟩]).meshes =
        [⟨0, .stochClone 1 false 0⟩] := by
      simp [renderDepthBufferModel, substituteMaterials]
    rw [h0] at h
    simp at h
  · simp [renderDepthBufferModel, substituteMaterials]

/-- Claim C3, amended.  When the depth-pass render call completes normally,
every mesh's material reference is restored to its pre-pass value (keyed
per mesh through the saved map, for any number of transparent meshes with
distinct identities) and every cloned material is disposed.  When the
render call throws, the exception propagates before restoration: every
transparent mesh is left holding its substituted clone and no clone is
disposed. -/
theorem c3_material_restoration :
    ∀ (jitter : ℕ) (meshes : List SceneMesh),
      (meshes.map SceneMesh.meshId).Nodup →
      ((renderDepthBufferModel false jitter meshes).meshes = meshes ∧
        (renderDepthBufferModel false jitter meshes).threw = false ∧
        ∀ b ∈ (renderDepthBufferModel false jitter meshes).disposedClones,
          b = true) ∧
      ((renderDepthBufferModel true jitter meshes).meshes =
          meshes.map (substMesh jitter) ∧
        (renderDepthBufferModel true jitter meshes).threw = true ∧
        ∀ b ∈ (renderDepthBufferModel true jitter meshes).disposedClones,
          b = false) := by
  intro jitter meshes hnd
  refine ⟨⟨?_, rfl, ?_⟩, ⟨?_, rfl, ?_⟩⟩
  · simpa [renderDepthBufferModel] using restore_substitute jitter meshes hnd
  · intro b hb
    simp [renderDepthBufferModel] at hb
    exact hb.2
  · simpa [renderDepthBufferModel] using substituteMaterials_fst jitter meshes
  · intro b hb
    simp [renderDepthBufferModel] at hb
    exact hb.2

/-- Claim C3, witness for the amended theorem on a concrete two-mesh scene
(one transparent, one opaque). -/
theorem c3_material_restoration_witness :
    (([⟨0, .phys ⟨100, true, 1, false⟩⟩, ⟨1, .phys ⟨101, false, 1, true⟩⟩]
        : List SceneMesh).map SceneMesh.meshId).Nodup ∧
    (renderDepthBufferModel false 3
        [⟨0, .phys ⟨100, true, 1, false⟩⟩,
         ⟨1, .phys ⟨101, false, 1, true⟩⟩]).meshes =
      [⟨0, .phys ⟨100, true, 1, false⟩⟩, ⟨1, .phys ⟨101, false, 1, true⟩⟩] :=
  ⟨by decide,
   (c3_material_restoration 3
     [⟨0, .phys ⟨100, true, 1, false⟩⟩, ⟨1, .phys ⟨101, false, 1, true⟩⟩]
     (by decide)).1.1⟩

/-! ## Claim C1 -/

/-- Claim C1, counterexample.  The claim requires that over `N²` consecutive
`render()` calls the stochastic jitter index take every value of
`[0, N²)` exactly once, with `N = 8` for the depth shader's 8×8 matrix.
But `Pipeline.updateStochasticDepth` cycles the index modulo 16, so over
64 consecutive calls starting from the reset value the value 16 (which
lies in `[0, 64)`) is never taken. -/
theorem c1_jitter_64_coverage_fails :
    ((List.range 64).map stochasticJitterSeq).count 16 = 0 ∧
    ¬ (∀ v : ℕ, v < 64 →
        ((List.range 64).map stochasticJitterSeq).count v = 1) := by
  have h : ((List.range 64).map stochasticJitterSeq).count 16 = 0 := by decide
  exact ⟨h, fun hall => by have := hall 16 (by norm_num); omega⟩

/-- Claim C1, amended.  The stochastic jitter index cycles modulo 16 (not
modulo the 8×8 matrix length 64): any 16 consecutive `render()` calls see
every value of `[0, 16)` exactly once.  The depth shader's 8×8 dither
matrix does contain each of the 64 rational thresholds `k/64` exactly
once, and the 4×4 variant's matrix each of the 16 thresholds `k/16`
exactly once. -/
theorem c1_jitter_cycle_and_matrix_coverage :
    (∀ t0 : ℕ, ((List.range 16).map
        (fun i => stochasticJitterSeq (t0 + i))).Perm (List.range 16)) ∧
    (∀ k : ℕ, k < 64 → BAYER_8X8.count ((k : ℚ) / 64) = 1) ∧
    (∀ k : ℕ, k < 16 → BAYER_4X4.count ((k : ℚ) / 16) = 1) :=
  ⟨jitter_window_perm, bayer8_count, bayer4_count⟩

/-- Claim C1, witness for the amended theorem at concrete inputs. -/
theorem c1_jitter_cycle_and_matrix_coverage_witness :
    ((List.range 16).map (fun i => stochasticJitterSeq (5 + i))).Perm
      (List.range 16) ∧
    ((7 : ℕ) < 64 ∧ BAYER_8X8.count ((7 : ℚ) / 64) = 1) ∧
    ((11 : ℕ) < 16 ∧ BAYER_4X4.count ((11 : ℚ) / 16) = 1) :=
  ⟨c1_jitter_cycle_and_matrix_coverage.1 5,
   ⟨by norm_num, c1_jitter_cycle_and_matrix_coverage.2.1 7 (by norm_num)⟩,
   ⟨by norm_num, c1_jitter_cycle_and_matrix_coverage.2.2 11 (by norm_num)⟩⟩

/-! ## Claim C2 -/

/-- Claim C2, counterexample.  The claim's survival fraction
`round(p·N²)/N²` is wrong at `p = 0`: the matrix cell holding threshold
`0` never discards an opacity-0 fragment (`threshold > opacity` is strict),
so the fragment survives exactly 1 frame of the 64-frame cycle — fraction
`1/64` — while `round(0·64)/64 = 0`. -/
theorem c2_round_formula_fails :
    survivalCount 0 0 0 = 1 ∧
    ((survivalCount 0 0 0 : ℚ) / 64 ≠ (round ((0 : ℚ) * 64) : ℚ) / 64) := by
  have h : survivalCount 0 0 0 = 1 := by
    have h0 := survivalCount_eq 0 0 0 le_rfl (by norm_num)
    simpa using h0
  refine ⟨h, ?_⟩
  rw [h]
  norm_num

/-- Claim C2, amended.  For the 8×8 depth shader: (a) for jitter indices
within one cycle the threshold is the matrix entry at flat index
`((pixelY + j/8) mod 8)·8 + ((pixelX + j%8) mod 8)`; (b) with no opacity
texture bound the fragment is discarded iff `threshold > opacity`; (c) for
`0 ≤ p < 1`, over a full 64-value jitter window the fragment survives
exactly `⌊p·64⌋ + 1` times (fraction `(⌊p·N²⌋+1)/N²`, not
`round(p·N²)/N²`). -/
theorem c2_dither_discard_and_fraction :
    (∀ x y j : ℕ, j < 64 →
        ditherPattern x y j = BAYER_8X8.getD (bayerFlatIndex x y j) 0) ∧
    (∀ p mapAlpha : ℚ, ∀ x y j : ℕ,
        (stochasticDepthFragMain p false mapAlpha x y j = none ↔
          ditherPattern x y j > p)) ∧
    (∀ x y : ℕ, ∀ p : ℚ, 0 ≤ p → p < 1 →
        survivalCount x y p = (⌊p * 64⌋).toNat + 1) := by
  refine ⟨?_, frag_discard_iff, survivalCount_eq⟩
  intro x y j hj
  have hlen : BAYER_8X8_NUM.length = 64 := by decide
  rw [ditherPattern_eq_num x y j (by omega),
    bayer_getD_cast _ (by rw [hlen]; exact bayerFlatIndex_lt x y j)]

/-! ## Claim C4 -/

/-- Claim C4, counterexample.  `setScene` does not reset the first-frame
flag, so the bootstrap is *not* re-entered on scene re-bind: after two
rendered frames, re-binding a scene and rendering issues a temporal blend
draw (reading history) instead of seeding history by a swap — contradicting
the claim for the "first render() call after scene bind" case. -/
theorem c4_rebind_issues_blend_draw :
    (setScenePipeline (renderPipeline (renderPipeline
        (setScenePipeline (initPipeline 800 600 2))).1).1).fogFirstFrame = false ∧
    (⟨.fogBlendPass, some 2, [3, 4]⟩ : Draw) ∈
      (renderPipeline (setScenePipeline (renderPipeline (renderPipeline
        (setScenePipeline (initPipeline 800 600 2))).1).1)).2 := by
  refine ⟨rfl, ?_⟩
  simp [initPipeline, setScenePipeline, renderPipeline, blendFogStep,
    updateStochasticDepthStep]

/-- Claim C4, amended.  On the first `render()` after construction or after
`updateTargets()` (i.e. whenever the first-frame flag is set), history is
seeded from the just-rendered fog buffer by a reference swap: no blend
draw is issued, the flag clears, and the compose draw samples exactly the
buffer the fog pass wrote this frame (current-frame-only output).
`setScene` does **not** reset the flag, so scene re-bind does not re-enter
the bootstrap. -/
theorem c4_bootstrap_seeds_history_by_swap :
    ∀ s : PipelineState, s.fogFirstFrame = true → s.sceneBound = true →
      (renderPipeline s).1.fogFirstFrame = false ∧
      (renderPipeline s).1.fogHistoryTarget = s.fogCurrentTarget ∧
      (renderPipeline s).1.fogCurrentTarget = s.fogHistoryTarget ∧
      (∀ d ∈ (renderPipeline s).2, d.kind ≠ .fogBlendPass) ∧
      (⟨.fogPass, some s.fogCurrentTarget, [depthTargetId]⟩ : Draw) ∈
        (renderPipeline s).2 ∧
      (⟨.composePass, none, [colorTargetId, s.fogCurrentTarget]⟩ : Draw) ∈
        (renderPipeline s).2 ∧
      (setScenePipeline s).fogFirstFrame = s.fogFirstFrame := by
  intro s hff hsb
  simp [renderPipeline, blendFogStep, setScenePipeline, hff, hsb]

/-- Claim C4, witness for the amended theorem: the first frame after
construction and scene bind. -/
theorem c4_bootstrap_seeds_history_by_swap_witness :
    (setScenePipeline (initPipeline 800 600 2)).fogFirstFrame = true ∧
    (setScenePipeline (initPipeline 800 600 2)).sceneBound = true ∧
    (renderPipeline (setScenePipeline (initPipeline 800 600 2))).1.fogHistoryTarget =
      (setScenePipeline (initPipeline 800 600 2)).fogCurrentTarget :=
  ⟨rfl, rfl,
   (c4_bootstrap_seeds_history_by_swap
     (setScenePipeline (initPipeline 800 600 2)) rfl rfl).2.1⟩

/-! ## Claim C8 -/

theorem fogTargetsOK_init (w h f : ℕ) : fogTargetsOK (initPipeline w h f) := by
  simp [fogTargetsOK, initPipeline]

/-- Closed form for the post-frame state of the fog pipeline. -/
theorem renderPipeline_state (s : PipelineState) :
    (renderPipeline s).1 =
      if s.sceneBound then
        (if s.fogFirstFrame then
          { s with stochasticJitterIndex :=
                     updateStochasticDepthStep s.stochasticJitterIndex,
                   fogFirstFrame := false,
                   fogHistoryTarget := s.fogCurrentTarget,
                   fogCurrentTarget := s.fogHistoryTarget }
        else
          { s with stochasticJitterIndex :=
                     updateStochasticDepthStep s.stochasticJitterIndex,
                   fogHistoryTarget := s.fogBlendedTarget,
                   fogBlendedTarget := s.fogHistoryTarget })
      else s := by
  by_cases hsb : s.sceneBound <;> by_cases hff : s.fogFirstFrame <;>
    simp [renderPipeline, blendFogStep, hsb, hff]

theorem fogTargetsOK_step (s : PipelineState) (op : PipelineOp)
    (h : fogTargetsOK s) : fogTargetsOK (stepPipeline s op).1 := by
  unfold fogTargetsOK at h ⊢
  cases op with
  | renderOp =>
    rw [show (stepPipeline s PipelineOp.renderOp).1 = (renderPipeline s).1 from rfl,
      renderPipeline_state]
    split_ifs <;> simp <;> omega
  | updateTargetsOp w h' => simpa [stepPipeline, updateTargetsPipeline] using h
  | setSceneOp => simpa [stepPipeline, setScenePipeline] using h

theorem fog_step_draws_no_alias (s : PipelineState) (op : PipelineOp)
    (h : fogTargetsOK s) : ∀ d ∈ (stepPipeline s op).2, drawNoAlias d := by
  obtain ⟨hc, hh, hb, hch, hcb, hhb⟩ := h
  cases op with
  | renderOp =>
    by_cases hsb : s.sceneBound <;> by_cases hff : s.fogFirstFrame <;>
      intro d hd <;>
      simp [stepPipeline, renderPipeline, blendFogStep, hsb, hff] at hd <;>
      rcases hd with rfl | rfl | rfl | rfl | rfl <;>
      intro t ht <;> simp_all [drawNoAlias, colorTargetId, depthTargetId] <;> omega
  | updateTargetsOp w h' => simp [stepPipeline]
  | setSceneOp => simp [stepPipeline]

theorem fog_run_no_alias (ops : List PipelineOp) :
    ∀ s : PipelineState, fogTargetsOK s →
      fogTargetsOK (runPipeline s ops).1 ∧
      ∀ d ∈ (runPipeline s ops).2, drawNoAlias d := by
  induction ops with
  | nil => intro s h; exact ⟨h, by simp [runPipeline]⟩
  | cons op ops ih =>
    intro s h
    have hstep := fogTargetsOK_step s op h
    have hdraws := fog_step_draws_no_alias s op h
    obtain ⟨hrec, hrecd⟩ := ih (stepPipeline s op).1 hstep
    refine ⟨by simpa [runPipeline] using hrec, ?_⟩
    intro d hd
    simp only [runPipeline, List.mem_append] at hd
    rcases hd with hd | hd
    · exact hdraws d hd
    · exact hrecd d hd

theorem taaTargetsOK_init (cube : Bool) : taaTargetsOK (initTAAState cube) := by
  simp [taaTargetsOK, initTAAState]

theorem taaTargetsOK_step (s : TAAState) (op : TAAOp)
    (h : taaTargetsOK s) : taaTargetsOK (stepTAA s op).1 := by
  unfold taaTargetsOK at h ⊢
  cases op with
  | renderOp =>
    by_cases hff : s.taaFirstFrame <;>
      simp [stepTAA, renderTAAFrame, renderTAAStep, hff] <;> tauto
  | updateTargetsOp => simpa [stepTAA, updateTargetsTAA] using h

/-- The draw log of one TAA frame, in terms of the pre-frame target
references. -/
theorem renderTAAFrame_log (s : TAAState) :
    (renderTAAFrame s).2 =
      [⟨.taaScenePass, some taaCurrentId, []⟩,
       ⟨.taaScenePass, some s.taaDepthTarget, []⟩,
       ⟨.taaVelocityPass, some taaVelocityId, [s.taaDepthTarget]⟩] ++
      (if s.taaFirstFrame then
        [⟨.taaSeedPass, some s.taaAccumulatedTarget, []⟩,
         ⟨.taaSeedDepthPass, some s.taaHistoryDepthTarget, []⟩] else []) ++
      [⟨.taaBlendPass, some s.taaPreviousTarget,
          [taaCurrentId, s.taaAccumulatedTarget]⟩,
       ⟨.taaFogPass, some taaFogId, [s.taaDepthTarget]⟩,
       ⟨.taaComposePass, none, [s.taaPreviousTarget, taaFogId]⟩] := by
  by_cases hff : s.taaFirstFrame <;>
    simp [renderTAAFrame, renderTAAStep, hff]

theorem taa_step_draws_no_alias (s : TAAState) (op : TAAOp)
    (h : taaTargetsOK s) : ∀ d ∈ (stepTAA s op).2, drawNoAlias d := by
  obtain ⟨hpa, hdh⟩ := h
  cases op with
  | renderOp =>
    intro d hd
    rw [show (stepTAA s .renderOp).2 = (renderTAAFrame s).2 from rfl,
      renderTAAFrame_log] at hd
    simp only [List.mem_append, List.mem_cons, List.mem_singleton,
      List.not_mem_nil, or_false] at hd
    have hd10 : s.taaDepthTarget = 13 ∨ s.taaDepthTarget = 14 := by tauto
    have hprev : s.taaPreviousTarget = 11 ∨ s.taaPreviousTarget = 12 := by tauto
    have hpa' : s.taaPreviousTarget ≠ s.taaAccumulatedTarget := by
      rcases hpa with ⟨h1, h2⟩ | ⟨h1, h2⟩ <;> omega
    rcases hd with ((rfl | rfl | rfl) | hseed) | (rfl | rfl | rfl)
    · intro t ht; simp at ht; subst ht; simp
    · intro t ht; simp at ht; subst ht; simp
    · intro t ht; simp at ht; subst ht
      simp only [List.mem_singleton, taaVelocityId]
      omega
    · by_cases hff : s.taaFirstFrame
      · rw [if_pos hff] at hseed
        simp only [List.mem_cons, List.mem_singleton, List.not_mem_nil,
          or_false] at hseed
        rcases hseed with rfl | rfl <;> intro t ht <;> simp at ht <;>
          subst ht <;> simp
      · rw [if_neg hff] at hseed
        simp at hseed
    · intro t ht; simp at ht; subst ht
      simp only [List.mem_cons, List.mem_singleton, List.not_mem_nil,
        taaCurrentId, or_false]
      omega
    · intro t ht; simp at ht; subst ht
      simp only [List.mem_singleton, taaFogId]
      omega
    · intro t ht; simp at ht
  | updateTargetsOp => simp [stepTAA]

theorem taa_run_no_alias (ops : List TAAOp) :
    ∀ s : TAAState, taaTargetsOK s →
      taaTargetsOK (runTAA s ops).1 ∧
      ∀ d ∈ (runTAA s ops).2, drawNoAlias d := by
  induction ops with
  | nil => intro s h; exact ⟨h, by simp [runTAA]⟩
  | cons op ops ih =>
    intro s h
    have hstep := taaTargetsOK_step s op h
    have hdraws := taa_step_draws_no_alias s op h
    obtain ⟨hrec, hrecd⟩ := ih (stepTAA s op).1 hstep
    refine ⟨by simpa [runTAA] using hrec, ?_⟩
    intro d hd
    simp only [runTAA, List.mem_append] at hd
    rcases hd with hd | hd
    · exact hdraws d hd
    · exact hrecd d hd

/-- Claim C8.  Under every sequence of `render()` / `updateTargets()` /
`setScene()` calls from a freshly constructed pipeline, no draw call of
either pipeline variant ever samples the render target it is writing; in
particular the three fog-target references (current, history, blended)
stay pairwise-distinct, because the bootstrap and steady-state swaps are
transpositions of the three physical buffers. -/
theorem c8_no_read_write_aliasing :
    (∀ (w h f : ℕ) (ops : List PipelineOp),
        fogTargetsOK (runPipeline (initPipeline w h f) ops).1 ∧
        ∀ d ∈ (runPipeline (initPipeline w h f) ops).2, drawNoAlias d) ∧
    (∀ (cube : Bool) (ops : List TAAOp),
        taaTargetsOK (runTAA (initTAAState cube) ops).1 ∧
        ∀ d ∈ (runTAA (initTAAState cube) ops).2, drawNoAlias d) :=
  ⟨fun w h f ops => fog_run_no_alias ops _ (fogTargetsOK_init w h f),
   fun cube ops => taa_run_no_alias ops _ (taaTargetsOK_init cube)⟩

/-- Claim C8, witness: a concrete three-frame run of the fog pipeline and a
concrete draw of its log. -/
theorem c8_no_read_write_aliasing_witness :
    fogTargetsOK (runPipeline (initPipeline 800 600 2)
      [.setSceneOp, .renderOp, .renderOp, .updateTargetsOp 400 300, .renderOp]).1 ∧
    ((⟨.fogBlendPass, some 4, [3, 2]⟩ : Draw) ∈
        (runPipeline (initPipeline 800 600 2)
          [.setSceneOp, .renderOp, .renderOp, .updateTargetsOp 400 300, .renderOp]).2 ∧
      drawNoAlias (⟨.fogBlendPass, some 4, [3, 2]⟩ : Draw)) := by
  have hmem : (⟨.fogBlendPass, some 4, [3, 2]⟩ : Draw) ∈
      (runPipeline (initPipeline 800 600 2)
        [.setSceneOp, .renderOp, .renderOp, .updateTargetsOp 400 300, .renderOp]).2 := by
    simp [runPipeline, stepPipeline, initPipeline, setScenePipeline,
      renderPipeline, blendFogStep, updateTargetsPipeline, updateStochasticDepthStep]
  exact ⟨((c8_no_read_write_aliasing.1 800 600 2
      [.setSceneOp, .renderOp, .renderOp, .updateTargetsOp 400 300, .renderOp])).1,
    hmem,
    ((c8_no_read_write_aliasing.1 800 600 2
      [.setSceneOp, .renderOp, .renderOp, .updateTargetsOp 400 300, .renderOp])).2
      _ hmem⟩

/-! ## Claim C9 -/

/-- Claim C9.  `updateTargets()` is idempotent: calling it twice with the
same window dimensions (and unchanged downsampling factor) produces the
same pipeline state as calling it once, and each call sets the first-frame
flag and resets the jitter index to 0. -/
theorem c9_updateTargets_idempotent (w h : ℕ) (s : PipelineState) :
    updateTargetsPipeline w h (updateTargetsPipeline w h s) =
      updateTargetsPipeline w h s ∧
    (updateTargetsPipeline w h s).fogFirstFrame = true ∧
    (updateTargetsPipeline w h s).stochasticJitterIndex = 0 := by
  refine ⟨?_, rfl, rfl⟩
  apply PipelineState.ext <;>
    simp only [updateTargetsPipeline]
  funext x
  simp only [Function.update_apply]
  split_ifs <;> rfl

/-- Claim C2, witness for the amended theorem at concrete inputs. -/
theorem c2_dither_discard_and_fraction_witness :
    ((9 : ℕ) < 64 ∧
      ditherPattern 3 5 9 = BAYER_8X8.getD (bayerFlatIndex 3 5 9) 0) ∧
    (stochasticDepthFragMain (1/2) false (3/4) 3 5 9 = none ↔
      ditherPattern 3 5 9 > 1/2) ∧
    ((0 : ℚ) ≤ 1/2 ∧ (1/2 : ℚ) < 1 ∧
      survivalCount 3 5 (1/2) = (⌊(1/2 : ℚ) * 64⌋).toNat + 1) :=
  ⟨⟨by norm_num, c2_dither_discard_and_fraction.1 3 5 9 (by norm_num)⟩,
   c2_dither_discard_and_fraction.2.1 (1/2) (3/4) 3 5 9,
   by norm_num, by norm_num,
   c2_dither_discard_and_fraction.2.2 3 5 (1/2) (by norm_num) (by norm_num)⟩

/-! ## Claim C5 -/

/-- Claim C5, counterexample.  A pixel whose reprojected UV
`vUv + velocity = (4/5 + 1/2, 1/2)` lies outside `[0,1]²`: the claim says
history must be rejected and the output equal the current-frame value.
But `taaBlendSimple.frag.glsl` ignores the velocity entirely and outputs
`mix(current, history, 0.7)`, which differs from the current-frame value
whenever history does. -/
theorem c5_disocclusion_not_rejected :
    ((4/5 : ℚ) + 1/2 > 1) ∧
    taaBlendSimpleFragMain (fun _ => ⟨1, 0, 0, 1⟩) (fun _ => ⟨0, 1, 0, 1⟩)
        (7/10) (4/5, 1/2) =
      mix4 ⟨1, 0, 0, 1⟩ ⟨0, 1, 0, 1⟩ (7/10) ∧
    taaBlendSimpleFragMain (fun _ => ⟨1, 0, 0, 1⟩) (fun _ => ⟨0, 1, 0, 1⟩)
        (7/10) (4/5, 1/2) ≠ ⟨1, 0, 0, 1⟩ := by
  refine ⟨by norm_num, rfl, ?_⟩
  intro h
  have hx := congrArg Vec4.x h
  simp only [taaBlendSimpleFragMain, mix4] at hx
  norm_num at hx

/-- Claim C5, amended.  The velocity buffer is rendered every frame, but the
temporal blend pass does not consume it: `TAABlendSimpleMaterial`'s shader
samples both current and history at the same `vUv` (no `+ velocity`
reprojection) and blends them unconditionally — there is no out-of-bounds
or depth-delta rejection, the commented-out complex implementation being
disabled in the source. -/
theorem c5_blend_samples_history_at_current_uv :
    (∀ (tCurrent tHistory : ℚ × ℚ → Vec4) (blendFactor : ℚ) (vUv : ℚ × ℚ),
        taaBlendSimpleFragMain tCurrent tHistory blendFactor vUv =
          mix4 (tCurrent vUv) (tHistory vUv) blendFactor) ∧
    (∀ s : TAAState, ∃ d ∈ (renderTAAFrame s).2, d.kind = .taaVelocityPass) ∧
    (∀ s : TAAState, taaTargetsOK s →
      ∀ d ∈ (renderTAAFrame s).2, d.kind = .taaBlendPass →
        taaVelocityId ∉ d.inputs ∧
        d.inputs = [taaCurrentId, s.taaAccumulatedTarget]) := by
  refine ⟨fun _ _ _ _ => rfl, ?_, ?_⟩
  · intro s
    refine ⟨⟨.taaVelocityPass, some taaVelocityId, [s.taaDepthTarget]⟩, ?_, rfl⟩
    rw [renderTAAFrame_log]
    simp
  · intro s hok d hd hk
    obtain ⟨hpa, hdh⟩ := hok
    rw [renderTAAFrame_log] at hd
    simp only [List.mem_append, List.mem_cons, List.mem_singleton,
      List.not_mem_nil, or_false] at hd
    rcases hd with ((rfl | rfl | rfl) | hseed) | (rfl | rfl | rfl)
    · simp at hk
    · simp at hk
    · simp at hk
    · by_cases hff : s.taaFirstFrame
      · rw [if_pos hff] at hseed
        simp only [List.mem_cons, List.mem_singleton, List.not_mem_nil,
          or_false] at hseed
        rcases hseed with rfl | rfl <;> simp at hk
      · rw [if_neg hff] at hseed
        simp at hseed
    · refine ⟨?_, rfl⟩
      simp only [List.mem_cons, List.mem_singleton, List.not_mem_nil,
        or_false, taaVelocityId, taaCurrentId]
      rcases hpa with ⟨h1, h2⟩ | ⟨h1, h2⟩ <;> omega
    · simp at hk
    · simp at hk

/-- Claim C5, witness for the amended theorem at a concrete state and the
concrete blend draw of its frame log. -/
theorem c5_blend_samples_history_at_current_uv_witness :
    (taaBlendSimpleFragMain (fun _ => ⟨1, 0, 0, 1⟩) (fun _ => ⟨0, 1, 0, 1⟩)
        (9/10) (1/2, 1/2) =
      mix4 ⟨1, 0, 0, 1⟩ ⟨0, 1, 0, 1⟩ (9/10)) ∧
    (∃ d ∈ (renderTAAFrame (initTAAState true)).2, d.kind = .taaVelocityPass) ∧
    ((⟨.taaBlendPass, some 11, [taaCurrentId, 12]⟩ : Draw) ∈
        (renderTAAFrame (initTAAState true)).2 ∧
      taaVelocityId ∉
        ((⟨.taaBlendPass, some 11, [taaCurrentId, 12]⟩ : Draw)).inputs) := by
  have hmem : (⟨.taaBlendPass, some 11, [taaCurrentId, 12]⟩ : Draw) ∈
      (renderTAAFrame (initTAAState true)).2 := by
    rw [renderTAAFrame_log]
    simp [initTAAState]
  exact ⟨c5_blend_samples_history_at_current_uv.1 _ _ (9/10) (1/2, 1/2),
    c5_blend_samples_history_at_current_uv.2.1 (initTAAState true),
    hmem,
    (c5_blend_samples_history_at_current_uv.2.2 (initTAAState true)
      (taaTargetsOK_init true) _ hmem rfl).1⟩

/-! ## Claim C6 -/

/-- Claim C6.  The composite shader substitutes the configured background
color wherever scene alpha is ≤ 0.001: the pre-grading RGB then equals
`backgroundColor + fogRGB` exactly (the fog sample being the blurred fog
value).  The final output applies color correction
(exposure/brightness/contrast/saturation) and the vignette factor to that
pre-grading color, with alpha `max(sceneAlpha, fogAlpha)`. -/
theorem c6_compose_background_substitution :
    ∀ (color fog : Vec4) (backgroundColor : Vec3)
      (vignetteIntensity vignetteRadius exposure contrast saturation
        brightness dist : ℚ),
      color.w ≤ 1/1000 →
      composePreGrade color fog backgroundColor =
        Vec3.add backgroundColor fog.rgb ∧
      composeFragMain color fog backgroundColor vignetteIntensity
          vignetteRadius exposure contrast saturation brightness dist =
        ⟨(applyColorCorrection exposure contrast saturation brightness
            (composePreGrade color fog backgroundColor)).x *
              calculateVignette vignetteIntensity vignetteRadius dist,
          (applyColorCorrection exposure contrast saturation brightness
            (composePreGrade color fog backgroundColor)).y *
              calculateVignette vignetteIntensity vignetteRadius dist,
          (applyColorCorrection exposure contrast saturation brightness
            (composePreGrade color fog backgroundColor)).z *
              calculateVignette vignetteIntensity vignetteRadius dist,
          max color.w fog.w⟩ := by
  intro color fog backgroundColor vi vr e c sat br dist halpha
  constructor
  · unfold composePreGrade
    rw [if_neg (not_lt.mpr halpha)]
  · rfl

/-- Claim C6, witness: a pixel with scene alpha 0 (no geometry). -/
theorem c6_compose_background_substitution_witness :
    ((⟨0, 0, 0, 0⟩ : Vec4).w ≤ 1/1000) ∧
    composePreGrade ⟨0, 0, 0, 0⟩ ⟨1/2, 1/4, 0, 1/3⟩ ⟨1/10, 1/10, 3/20⟩ =
      Vec3.add ⟨1/10, 1/10, 3/20⟩ (Vec4.rgb ⟨1/2, 1/4, 0, 1/3⟩) :=
  ⟨by norm_num,
   (c6_compose_background_substitution ⟨0, 0, 0, 0⟩ ⟨1/2, 1/4, 0, 1/3⟩
     ⟨1/10, 1/10, 3/20⟩ (61/100) (17/20) (73/50) (111/100) (13/20) (107/100)
     (1/4) (by norm_num)).1⟩

/-! ## Claim C7 -/

/-- Claim C7.  Both temporal blend policies of the corpus (the fog blend and
the TAA blend use the same `mix(current, history, blendFactor)` shader):
the blended result is `history·historyWeight + current·currentWeight` with
`historyWeight = blendFactor`, `currentWeight = 1 − blendFactor`, and
`historyWeight + currentWeight = 1` exactly, for every blend factor and
every frame's sampled values. -/
theorem c7_blend_weights_sum_to_one :
    ∀ (tCurrent tHistory : ℚ × ℚ → Vec4) (blendFactor : ℚ) (vUv : ℚ × ℚ),
      taaBlendSimpleFragMain tCurrent tHistory blendFactor vUv =
        Vec4.add (Vec4.smul blendFactor (tHistory vUv))
          (Vec4.smul (1 - blendFactor) (tCurrent vUv)) ∧
      blendFactor + (1 - blendFactor) = 1 := by
  intro tCurrent tHistory b vUv
  constructor
  · simp only [taaBlendSimpleFragMain, mix4, Vec4.add, Vec4.smul,
      Vec4.mk.injEq]
    refine ⟨by ring, by ring, by ring, by ring⟩
  · ring

/-! ## Claim C10 -/

/-- Claim C10.  In the TAA variant `render()` runs the stochastic jitter
update twice per frame (once in `render()`, once in `renderTAA()`), so
with a `ShaderMaterial`-carrying cube the index advances by 2 modulo 16
per frame: at every frame boundary it equals `2t mod 16`, is always even,
and every even value of `[0, 16)` is attained. -/
theorem c10_taa_stochastic_index_even :
    (∀ s : TAAState,
        (renderTAAFrame s).1.stochasticJitterIndex =
          updateStochasticTransparencyStep s.cubeHasShaderMaterial
            (updateStochasticTransparencyStep s.cubeHasShaderMaterial
              s.stochasticJitterIndex)) ∧
    (∀ t : ℕ, taaStochSeq true t = (2 * t) % 16) ∧
    (∀ t : ℕ, taaStochSeq true t % 2 = 0) ∧
    (∀ v : ℕ, v < 16 → v % 2 = 0 → ∃ t : ℕ, taaStochSeq true t = v) := by
  have hclosed : ∀ t : ℕ, taaStochSeq true t = (2 * t) % 16 := by
    intro t
    induction t with
    | zero => rfl
    | succ n ih =>
      simp only [taaStochSeq, updateStochasticTransparencyStep, if_true, ih]
      omega
  refine ⟨?_, hclosed, ?_, ?_⟩
  · intro s
    simp [renderTAAFrame, renderTAAStep]
  · intro t
    rw [hclosed]
    omega
  · intro v hv he
    exact ⟨v / 2, by rw [hclosed]; omega⟩

/-- Claim C10, witness: frame 3 sees index 6; even value 10 is attained. -/
theorem c10_taa_stochastic_index_even_witness :
    taaStochSeq true 3 % 2 = 0 ∧
    ((10 : ℕ) < 16 ∧ (10 : ℕ) % 2 = 0 ∧ ∃ t : ℕ, taaStochSeq true t = 10) :=
  ⟨c10_taa_stochastic_index_even.2.2.1 3,
   by norm_num, by norm_num,
   c10_taa_stochastic_index_even.2.2.2 10 (by norm_num) (by norm_num)⟩

end TaaFog
